import Mathlib

/-!
Shallow embedding of the TTL-cache-backed entity lookup layer of the
boxing/racing homework repository, together with the ring/track session
rosters built on top of it.

Conventions used throughout:
* Python dictionaries (`Boxers._boxer_cache`, `TrackModel._car_cache`,
  `TrackModel._ttl`, and the backing database tables keyed by id) are modelled
  as association lists with dictionary semantics (`assocFind` returns the value
  stored for a key, `assocInsert` overwrites, `assocErase` removes).
* Timestamps (`time.time()`) are modelled as rationals; the current instant is
  passed explicitly to every operation that reads the clock.
* Python floats used in the scoring formulas are modelled as real numbers; the
  injected random draw is an explicit real argument.
* A Python function that can raise is modelled as returning `Except PyError`;
  since an exception aborts the caller, every operation also returns the state
  as mutated up to the point of the raise.
* Where a claim needs the number of backing-store round trips, the lookup
  functions additionally return the number of database calls they performed.
-/

set_option maxHeartbeats 1000000

namespace BoxRace

/-- Errors a modelled operation can raise.  The source raises `ValueError`,
`TypeError` and (implicitly, on a dictionary access) `KeyError`; messages
follow the source text (with quote characters dropped). -/
inductive PyError where
  | valueError (msg : String)
  | keyError (msg : String)
  deriving DecidableEq, Repr

/-- Dictionary lookup on an association list (Python `d.get(k)` / `d[k]`). -/
def assocFind {α : Type} (k : Nat) : List (Nat × α) → Option α
  | [] => none
  | (k', v) :: rest => if k = k' then some v else assocFind k rest

/-- Dictionary removal (Python `d.pop(k, None)` / `del d[k]`). -/
def assocErase {α : Type} (k : Nat) : List (Nat × α) → List (Nat × α)
  | [] => []
  | (k', v) :: rest =>
    if k = k' then assocErase k rest else (k', v) :: assocErase k rest

/-- Dictionary insertion/overwrite (Python `d[k] = v`). -/
def assocInsert {α : Type} (k : Nat) (v : α) (l : List (Nat × α)) :
    List (Nat × α) :=
  (k, v) :: assocErase k l

theorem assocFind_erase_self {α : Type} (k : Nat) (l : List (Nat × α)) :
    assocFind k (assocErase k l) = none := by
  induction l with
  | nil => rfl
  | cons hd tl ih =>
    obtain ⟨k', v⟩ := hd
    by_cases h : k = k'
    · subst h
      simp [assocErase, ih]
    · simp [assocErase, assocFind, h, ih]

theorem assocFind_erase_ne {α : Type} {k k' : Nat} (h : k ≠ k')
    (l : List (Nat × α)) :
    assocFind k (assocErase k' l) = assocFind k l := by
  induction l with
  | nil => rfl
  | cons hd tl ih =>
    obtain ⟨k'', v⟩ := hd
    by_cases h2 : k' = k''
    · subst h2
      simp [assocErase, assocFind, h, ih]
    · by_cases h3 : k = k''
      · subst h3
        simp [assocErase, assocFind, h2, ih]
      · simp [assocErase, assocFind, h2, h3, ih]

theorem assocFind_insert_self {α : Type} (k : Nat) (v : α)
    (l : List (Nat × α)) : assocFind k (assocInsert k v l) = some v := by
  simp [assocInsert, assocFind]

theorem assocFind_insert_ne {α : Type} {k k' : Nat} (h : k ≠ k') (v : α)
    (l : List (Nat × α)) :
    assocFind k (assocInsert k' v l) = assocFind k l := by
  simp [assocInsert, assocFind, h, assocFind_erase_ne h]

/-! ## HW3 boxing: `Boxers` with class-level TTL cache (`boxers_model.py`) -/

/-- A row of the `boxers` table (`Boxers` in `boxers_model.py`). -/
structure Boxers where
  id : Nat
  name : String
  weight : ℝ
  height : ℝ
  reach : ℝ
  age : ℤ
  fights : ℕ
  wins : ℕ

/-- Constant `Boxers._cache_ttl_seconds = 300`. -/
def cacheTtlSeconds : ℚ := 300

/-- Class-level state touched by the cached lookups: the TTL cache
`_boxer_cache : boxer_id -> (Boxers instance, expiration timestamp)` and the
database table behind `cls.query`. -/
structure BoxersState where
  cache : List (Nat × Boxers × ℚ)
  db : List (Nat × Boxers)

/-- The raw cache probe performed at the top of `get_boxer_by_id`:
`cached = cls._boxer_cache.get(boxer_id); if cached and now < cached[1]:
return cached[0]`.  A present tuple is always truthy, so the hit condition is
presence together with `now < expiry`; a miss or an expired entry yields
`none` (never an exception). -/
def boxerCacheGet (cache : List (Nat × Boxers × ℚ)) (boxer_id : Nat)
    (now : ℚ) : Option Boxers :=
  match assocFind boxer_id cache with
  | some (b, expiry) => if now < expiry then some b else none
  | none => none

/-- Embeds `Boxers.get_boxer_by_id`: serve a live cache entry, otherwise query the
database (one store call), raising `ValueError` when the row is absent and
caching the row with expiry `now + 300` when present.  Returns
(result, state after the call, number of database calls made). -/
def get_boxer_by_id (s : BoxersState) (boxer_id : Nat) (now : ℚ) :
    Except PyError Boxers × BoxersState × Nat :=
  match boxerCacheGet s.cache boxer_id now with
  | some b => (.ok b, s, 0)
  | none =>
    match assocFind boxer_id s.db with
    | none => (.error (.valueError s!"Boxer with ID {boxer_id} not found"), s, 1)
    | some b =>
      (.ok b,
        { s with cache := assocInsert boxer_id (b, now + cacheTtlSeconds) s.cache },
        1)

/-- Embeds `Boxers.delete`: fetch via `get_boxer_by_id` (propagating its
`ValueError` when the boxer is unknown), pop the cache entry, then delete the
row and commit.  The `if boxer is None` branch of the source is unreachable
because `get_boxer_by_id` raises instead of returning `None`. -/
def boxersDelete (s : BoxersState) (boxer_id : Nat) (now : ℚ) :
    Except PyError Unit × BoxersState :=
  match get_boxer_by_id s boxer_id now with
  | (.error e, s1, _) => (.error e, s1)
  | (.ok _, s1, _) =>
    let s2 := { s1 with cache := assocErase boxer_id s1.cache }
    (.ok (), { s2 with db := assocErase boxer_id s2.db })

/-- Embeds `cls.query.filter_by(name=name.strip()).first()`: the first row whose
`name` column equals the stripped name. -/
def queryFirstByName (name : String) : List (Nat × Boxers) → Option Boxers
  | [] => none
  | (_, b) :: rest => if b.name = name then some b else queryFirstByName name rest

/-- The `try:` block of `Boxers.get_boxer_by_name`: query by stripped name and
raise `ValueError` when no row matches. -/
def get_boxer_by_name_body (db : List (Nat × Boxers)) (name : String) :
    Except PyError Boxers :=
  match queryFirstByName name.trim db with
  | some b => .ok b
  | none => .error (.valueError s!"Boxer with name {name} not found")

/-- Embeds `Boxers.get_boxer_by_name`: the surrounding `except ValueError:` handler
only logs, so the internally raised error is swallowed and the function falls
off its end, returning Python `None`.  The caller therefore sees an optional
boxer and never an exception. -/
def get_boxer_by_name (db : List (Nat × Boxers)) (name : String) :
    Option Boxers :=
  match get_boxer_by_name_body db name with
  | .ok b => some b
  | .error _ => none

/-! ## Final project racing: `Cars` (`cars_model.py`) and `TrackModel`
(`track_model.py`) -/

/-- A row of the `cars` table (`Cars` in `cars_model.py`).  Numeric attributes
that take part in the float scoring formula are modelled as reals. -/
structure Cars where
  id : Nat
  make : String
  model : String
  year : ℝ
  horsepower : ℝ
  weight : ℝ
  zero_to_sixty : ℝ
  top_speed : ℝ
  handling : ℝ
  races : ℕ
  wins : ℕ

/-- Embeds `Cars.get_car_by_id`: a plain database lookup with no cache; raises
`ValueError` when the row is absent. -/
def get_car_by_id (db : List (Nat × Cars)) (car_id : Nat) :
    Except PyError Cars :=
  match assocFind car_id db with
  | none => .error (.valueError s!"Car with ID {car_id} not found.")
  | some c => .ok c

/-- Embeds `Cars.delete`: confirm existence via `get_car_by_id` (propagating its
`ValueError`), then delete the row and commit.  Acts on the `cars` table
only — it has no reference to any `TrackModel` instance or its caches. -/
def carsDelete (db : List (Nat × Cars)) (car_id : Nat) :
    Except PyError Unit × List (Nat × Cars) :=
  match get_car_by_id db car_id with
  | .error e => (.error e, db)
  | .ok _ => (.ok (), assocErase car_id db)

/-- Embeds `Cars.update_stats`: bump the race counter, bump the win counter on a
win, and raise on an invalid result string or when wins would exceed races.
(The source message strings quote the words win and loss.) -/
def carsUpdateStats (c : Cars) (result : String) : Except PyError Cars :=
  if result ≠ "win" ∧ result ≠ "loss" then
    .error (.valueError "Result must be win or loss.")
  else
    let races := c.races + 1
    let wins := c.wins + (if result = "win" then 1 else 0)
    if wins > races then .error (.valueError "Wins cannot exceed number of races.")
    else .ok { c with races := races, wins := wins }

/-- Instance state of `TrackModel` plus the `cars` table it reads through
`Cars.get_car_by_id`: the roster of entered car ids, the car cache
`_car_cache`, the expiry map `_ttl`, and the configured `ttl_seconds`. -/
structure TrackState where
  track : List Nat
  car_cache : List (Nat × Cars)
  ttl : List (Nat × ℚ)
  ttl_seconds : ℚ
  db : List (Nat × Cars)

/-- Embeds `TrackModel.clear_track`: early return on an empty track (a logged
no-op), otherwise `self.track.clear()`.  Touches neither `_car_cache` nor
`_ttl` nor the database. -/
def clear_track (s : TrackState) : TrackState :=
  if s.track.isEmpty then s else { s with track := [] }

/-- The final logging line of `enter_track` interpolates
`Cars.get_car_by_id(c)` for every id on the track, so it re-raises
`ValueError` if any entered id no longer resolves. -/
def logResolveAll (db : List (Nat × Cars)) : List Nat → Except PyError Unit
  | [] => .ok ()
  | c :: rest =>
    match get_car_by_id db c with
    | .error e => .error e
    | .ok _ => logResolveAll db rest

/-- Embeds `TrackModel.enter_track`: reject a full track (size 2) before anything
else, resolve the car (propagating `ValueError`), then append the id to the
roster and cache the car with expiry `now + ttl_seconds`.  The trailing
logging line re-resolves every id on the track (see `logResolveAll`); by that
point the roster and cache have already been mutated. -/
def enter_track (s : TrackState) (car_id : Nat) (now : ℚ) :
    Except PyError Unit × TrackState :=
  if s.track.length ≥ 2 then
    (.error (.valueError "Track is full. There can only be two cars in a race."), s)
  else
    match get_car_by_id s.db car_id with
    | .error e => (.error e, s)
    | .ok car =>
      let s' := { s with
        track := s.track ++ [car_id],
        car_cache := assocInsert car_id car s.car_cache,
        ttl := assocInsert car_id (now + s.ttl_seconds) s.ttl }
      match logResolveAll s'.db s'.track with
      | .error e => (.error e, s')
      | .ok _ => (.ok (), s')

/-- The loop body of `TrackModel.get_cars`, threading the cache and expiry
maps and counting database calls.  An entry is expired when its id is missing
from `_ttl` or its recorded expiry is strictly below the current time; on
expiry the car is refetched (one store call, propagating `ValueError`) and
recached, otherwise it is served from `_car_cache` (a `KeyError` if the
cache slot is missing, mirroring the raw `self._car_cache[car_id]` access). -/
def expiredAt (ttl : List (Nat × ℚ)) (car_id : Nat) (now : ℚ) : Bool :=
  match assocFind car_id ttl with
  | none => true
  | some e => decide (e < now)

/-- Loop of `TrackModel.get_cars` (see the comment on `expiredAt`). -/
def get_cars_go (db : List (Nat × Cars)) (ttl_seconds now : ℚ) :
    List Nat → List (Nat × Cars) → List (Nat × ℚ) →
    Except PyError (List Cars) × List (Nat × Cars) × List (Nat × ℚ) × Nat
  | [], cache, ttl => (.ok [], cache, ttl, 0)
  | car_id :: rest, cache, ttl =>
    if expiredAt ttl car_id now then
      match get_car_by_id db car_id with
      | .error e => (.error e, cache, ttl, 1)
      | .ok car =>
        let cache' := assocInsert car_id car cache
        let ttl' := assocInsert car_id (now + ttl_seconds) ttl
        match get_cars_go db ttl_seconds now rest cache' ttl' with
        | (.ok cars, c2, t2, n) => (.ok (car :: cars), c2, t2, n + 1)
        | (.error e, c2, t2, n) => (.error e, c2, t2, n + 1)
    else
      match assocFind car_id cache with
      | some car =>
        match get_cars_go db ttl_seconds now rest cache ttl with
        | (.ok cars, c2, t2, n) => (.ok (car :: cars), c2, t2, n)
        | (.error e, c2, t2, n) => (.error e, c2, t2, n)
      | none => (.error (.keyError s!"{car_id}"), cache, ttl, 0)

/-- Embeds `TrackModel.get_cars`: resolve every id on the track in entry order, in
the manner of `get_cars_go`.  Returns (result, state after the call, number
of database calls). -/
def get_cars (s : TrackState) (now : ℚ) :
    Except PyError (List Cars) × TrackState × Nat :=
  match get_cars_go s.db s.ttl_seconds now s.track s.car_cache s.ttl with
  | (res, cache', ttl', n) =>
    (res, { s with car_cache := cache', ttl := ttl' }, n)

/-- Embeds `TrackModel.get_performance_score`. -/
noncomputable def get_performance_score (car : Cars) : ℝ :=
  let power_to_weight := car.horsepower / car.weight * 1000
  let acceleration_factor := 10 / car.zero_to_sixty
  let year_factor := (car.year - 1950) / 70
  power_to_weight * 0.4 + acceleration_factor * 20 +
    (car.top_speed / 200) * 20 + (car.handling / 10) * 15 + year_factor * 5

/-- The tail of `TrackModel.race` after the winner and loser are chosen:
persist `winner.update_stats("win")` then `loser.update_stats("loss")`
(either may raise, aborting with the database as updated so far), clear the
track and return the winner string. -/
def raceFinish (s : TrackState) (winner loser : Cars) :
    Except PyError String × TrackState :=
  match carsUpdateStats winner "win" with
  | .error e => (.error e, s)
  | .ok w' =>
    let s2 := { s with db := assocInsert winner.id w' s.db }
    match carsUpdateStats loser "loss" with
    | .error e => (.error e, s2)
    | .ok l' =>
      let s3 := { s2 with db := assocInsert loser.id l' s2.db }
      (.ok (winner.make ++ " " ++ winner.model), clear_track s3)

/-- Embeds `TrackModel.race`: reject a track of fewer than two cars, materialize the
roster through `get_cars`, compute both performance scores, normalize the
absolute difference with the logistic `1 / (1 + e^(-delta / 100))`, form
`win_probability = 0.5 + normalized_delta / 2` (the source computes the same
expression in both branches), and give the race to the better-scoring car
exactly when the injected draw `r` falls below that probability; then update
both cars and clear the track (`raceFinish`).  A roster of three or more ids
would fail Python tuple unpacking, modelled by the catch-all arm. -/
noncomputable def race (s : TrackState) (r : ℝ) (now : ℚ) :
    Except PyError String × TrackState :=
  if s.track.length < 2 then
    (.error (.valueError "There must be two cars to start a race."), s)
  else
    match get_cars s now with
    | (.error e, s1, _) => (.error e, s1)
    | (.ok cars, s1, _) =>
      match cars with
      | [car_1, car_2] =>
        let perf_1 := get_performance_score car_1
        let perf_2 := get_performance_score car_2
        let delta := |perf_1 - perf_2|
        let normalized_delta := 1 / (1 + Real.exp (-delta / 100))
        let win_probability := 0.5 + normalized_delta / 2
        if perf_1 > perf_2 then
          if r < win_probability then raceFinish s1 car_1 car_2
          else raceFinish s1 car_2 car_1
        else
          if r < win_probability then raceFinish s1 car_2 car_1
          else raceFinish s1 car_1 car_2
      | _ => (.error (.valueError "not enough values to unpack"), s1)

/-! ## HW2 boxing: `RingModel` (`ring_model.py`) -/

/-- The `Boxer` dataclass consumed by `RingModel` (fields as constructed in
the HW2 tests: `Boxer(id=..., name=..., weight=..., height=..., reach=...,
age=...)`). -/
structure Boxer where
  id : Nat
  name : String
  weight : ℝ
  height : ℝ
  reach : ℝ
  age : ℤ

/-- Embeds `RingModel.get_fighting_skill`:
`(weight * len(name)) + (reach / 10) + age_modifier` with the age modifier
`-1` below 25, `-2` above 35, else `0`. -/
noncomputable def get_fighting_skill (boxer : Boxer) : ℝ :=
  let age_modifier : ℝ :=
    if boxer.age < 25 then -1 else if boxer.age > 35 then -2 else 0
  boxer.weight * (boxer.name.length : ℝ) + boxer.reach / 10 + age_modifier

/-- Embeds `RingModel.clear_ring`: early return when already empty (a logged no-op),
otherwise `self.ring.clear()`. -/
def clear_ring (ring : List Boxer) : List Boxer :=
  if ring.isEmpty then ring else []

/-- Embeds `RingModel.enter_ring`: the `isinstance` guard always passes in this
typed embedding; a ring already holding two boxers rejects the entry with
`ValueError` and is left untouched, otherwise the boxer is appended. -/
def enter_ring (ring : List Boxer) (boxer : Boxer) :
    Except PyError Unit × List Boxer :=
  if ring.length ≥ 2 then
    (.error (.valueError "Ring is full, cannot add more boxers."), ring)
  else (.ok (), ring ++ [boxer])

/-- Persistent per-boxer fight statistics kept by the HW2 database. -/
structure BoxerStats where
  fights : ℕ
  wins : ℕ
  deriving DecidableEq, Repr

/-- Modelled from the spec: `update_boxer_stats` is defined in HW2's
`boxers_model.py`, which is not among the provided sources (only its callers
and tests are).  Per the spec ("Updates both participants' persistent
win/loss counters via the Backing Store") and the HW2 tests, it increments
the stored fight counter of the given boxer, increments the win counter on a
win, and raises `ValueError` on an invalid result string or an unknown
boxer id. -/
def update_boxer_stats (db : List (Nat × BoxerStats)) (boxer_id : Nat)
    (result : String) : Except PyError (List (Nat × BoxerStats)) :=
  if result ≠ "win" ∧ result ≠ "loss" then
    .error (.valueError "Result must be win or loss.")
  else
    match assocFind boxer_id db with
    | none => .error (.valueError s!"Boxer with ID {boxer_id} not found")
    | some st =>
      .ok (assocInsert boxer_id
        { fights := st.fights + 1,
          wins := st.wins + (if result = "win" then 1 else 0) } db)

/-- Embeds `RingModel.fight`: reject a ring of fewer than two boxers, compute both
fighting skills, normalize the absolute difference with the logistic
`1 / (1 + e^(-delta))`, and declare the first-entered boxer the winner
exactly when the injected draw `r` falls below that value; then persist a
win for the winner and a loss for the loser (either update may raise,
aborting with the statistics as updated so far), clear the ring and return
the winner name.  A ring of three or more boxers would fail Python tuple
unpacking, modelled by the catch-all arm.  Returns
(result, ring afterwards, statistics store afterwards). -/
noncomputable def fight (ring : List Boxer) (db : List (Nat × BoxerStats))
    (r : ℝ) : Except PyError String × List Boxer × List (Nat × BoxerStats) :=
  if ring.length < 2 then
    (.error (.valueError "There must be two boxers to start a fight."), ring, db)
  else
    match ring with
    | [boxer_1, boxer_2] =>
      let skill_1 := get_fighting_skill boxer_1
      let skill_2 := get_fighting_skill boxer_2
      let delta := |skill_1 - skill_2|
      let normalized_delta := 1 / (1 + Real.exp (-delta))
      let winner := if r < normalized_delta then boxer_1 else boxer_2
      let loser := if r < normalized_delta then boxer_2 else boxer_1
      match update_boxer_stats db winner.id "win" with
      | .error e => (.error e, ring, db)
      | .ok db1 =>
        match update_boxer_stats db1 loser.id "loss" with
        | .error e => (.error e, ring, db1)
        | .ok db2 => (.ok winner.name, clear_ring ring, db2)
    | _ => (.error (.valueError "not enough values to unpack"), ring, db)

/-! ## Sample entities used by concrete instances -/

/-- A sample boxer record for the HW3 model. -/
def sampleBoxers : Boxers :=
  { id := 1, name := "Ali", weight := 180, height := 180, reach := 74,
    age := 30, fights := 0, wins := 0 }

/-- A sample HW2 boxer with fighting skill `1 * 1 + 0 / 10 + 0 = 1`. -/
def bxLow : Boxer :=
  { id := 1, name := "a", weight := 1, height := 1, reach := 0, age := 30 }

/-- A sample HW2 boxer with fighting skill `10 * 2 + 0 / 10 + 0 = 20`. -/
def bxHigh : Boxer :=
  { id := 2, name := "bb", weight := 10, height := 1, reach := 0, age := 30 }

/-- A sample car whose performance score is exactly `500`:
`(1100 / 1000 * 1000) * 0.4 + (10 / 10) * 20 + (200 / 200) * 20 +
(10 / 10) * 15 + ((2020 - 1950) / 70) * 5 = 440 + 20 + 20 + 15 + 5`. -/
def carA : Cars :=
  { id := 7, make := "Apex", model := "GT", year := 2020, horsepower := 1100,
    weight := 1000, zero_to_sixty := 10, top_speed := 200, handling := 10,
    races := 0, wins := 0 }

/-- A sample car whose performance score is exactly `400` (as `carA` with
`850` horsepower). -/
def carB : Cars :=
  { id := 12, make := "Bolt", model := "S", year := 2020, horsepower := 850,
    weight := 1000, zero_to_sixty := 10, top_speed := 200, handling := 10,
    races := 0, wins := 0 }

/-! ## Helper lemmas -/

theorem expiredAt_none {ttl : List (Nat × ℚ)} {k : Nat} (now : ℚ)
    (h : assocFind k ttl = none) : expiredAt ttl k now = true := by
  simp [expiredAt, h]

theorem expiredAt_late {ttl : List (Nat × ℚ)} {k : Nat} {e now : ℚ}
    (h : assocFind k ttl = some e) (hlt : e < now) :
    expiredAt ttl k now = true := by
  simp [expiredAt, h, hlt]

theorem expiredAt_fresh {ttl : List (Nat × ℚ)} {k : Nat} {e now : ℚ}
    (h : assocFind k ttl = some e) (hle : now ≤ e) :
    expiredAt ttl k now = false := by
  simp [expiredAt, h]
  exact hle

theorem expiredAt_true_cases {ttl : List (Nat × ℚ)} {k : Nat} {now : ℚ}
    (h : expiredAt ttl k now = true) :
    assocFind k ttl = none ∨ ∃ e, assocFind k ttl = some e ∧ e < now := by
  unfold expiredAt at h
  cases hf : assocFind k ttl with
  | none => exact Or.inl rfl
  | some e =>
    rw [hf] at h
    simp at h
    exact Or.inr ⟨e, rfl, h⟩

theorem boxerCacheGet_erase (cache : List (Nat × Boxers × ℚ)) (k : Nat)
    (now : ℚ) : boxerCacheGet (assocErase k cache) k now = none := by
  simp [boxerCacheGet, assocFind_erase_self]

theorem clear_track_track (s : TrackState) : (clear_track s).track = [] := by
  unfold clear_track
  by_cases h : s.track.isEmpty
  · simp [h]
    exact List.isEmpty_iff.mp h
  · simp [h]

theorem clear_track_frame (s : TrackState) :
    (clear_track s).car_cache = s.car_cache ∧ (clear_track s).ttl = s.ttl ∧
    (clear_track s).ttl_seconds = s.ttl_seconds ∧ (clear_track s).db = s.db := by
  unfold clear_track
  by_cases h : s.track.isEmpty <;> simp [h]

theorem logResolveAll_ok (db : List (Nat × Cars)) (l : List Nat)
    (h : ∀ j ∈ l, (assocFind j db).isSome) : logResolveAll db l = .ok () := by
  induction l with
  | nil => rfl
  | cons c rest ih =>
    have hc := h c (by simp)
    obtain ⟨v, hv⟩ := Option.isSome_iff_exists.mp hc
    simp [logResolveAll, get_car_by_id, hv]
    exact ih fun j hj => h j (by simp [hj])

theorem get_cars_fresh_singleton {s : TrackState} {k : Nat} {c : Cars}
    {now : ℚ} (htrack : s.track = [k])
    (hexp : expiredAt s.ttl k now = false)
    (hcache : assocFind k s.car_cache = some c) :
    get_cars s now = (.ok [c], s, 0) := by
  simp [get_cars, htrack, get_cars_go, hexp, hcache]
  rw [← htrack]

theorem get_cars_refresh_singleton {s : TrackState} {k : Nat} {w : Cars}
    {now : ℚ} (htrack : s.track = [k])
    (hexp : expiredAt s.ttl k now = true)
    (hdb : assocFind k s.db = some w) :
    get_cars s now =
      (.ok [w],
        { s with car_cache := assocInsert k w s.car_cache,
                 ttl := assocInsert k (now + s.ttl_seconds) s.ttl }, 1) := by
  simp [get_cars, htrack, get_cars_go, hexp, get_car_by_id, hdb]

theorem get_cars_miss_singleton {s : TrackState} {k : Nat} {now : ℚ}
    (htrack : s.track = [k])
    (hexp : expiredAt s.ttl k now = true)
    (hdb : assocFind k s.db = none) :
    get_cars s now =
      (.error (.valueError s!"Car with ID {k} not found."), s, 1) := by
  simp [get_cars, htrack, get_cars_go, hexp, get_car_by_id, hdb]
  rw [← htrack]

theorem get_cars_fresh_pair {s : TrackState} {k1 k2 : Nat} {c1 c2 : Cars}
    {now : ℚ} (htrack : s.track = [k1, k2])
    (h1 : expiredAt s.ttl k1 now = false)
    (hc1 : assocFind k1 s.car_cache = some c1)
    (h2 : expiredAt s.ttl k2 now = false)
    (hc2 : assocFind k2 s.car_cache = some c2) :
    get_cars s now = (.ok [c1, c2], s, 0) := by
  simp [get_cars, htrack, get_cars_go, h1, hc1, h2, hc2]
  rw [← htrack]

theorem carsUpdateStats_win {c : Cars} (h : c.wins ≤ c.races) :
    carsUpdateStats c "win" = .ok { c with races := c.races + 1, wins := c.wins + 1 } := by
  simp [carsUpdateStats]
  omega

theorem carsUpdateStats_loss {c : Cars} (h : c.wins ≤ c.races) :
    carsUpdateStats c "loss" = .ok { c with races := c.races + 1 } := by
  simp [carsUpdateStats]
  omega

theorem raceFinish_ok {s : TrackState} {winner loser : Cars}
    (hw : winner.wins ≤ winner.races) (hl : loser.wins ≤ loser.races) :
    raceFinish s winner loser =
      (.ok (winner.make ++ " " ++ winner.model),
        clear_track
          { s with
            db := assocInsert loser.id { loser with races := loser.races + 1 }
              (assocInsert winner.id
                { winner with races := winner.races + 1, wins := winner.wins + 1 }
                s.db) }) := by
  simp [raceFinish, carsUpdateStats_win hw, carsUpdateStats_loss hl]

theorem update_boxer_stats_win {db : List (Nat × BoxerStats)} {k : Nat}
    {st : BoxerStats} (h : assocFind k db = some st) :
    update_boxer_stats db k "win" =
      .ok (assocInsert k ⟨st.fights + 1, st.wins + 1⟩ db) := by
  simp [update_boxer_stats, h]

theorem update_boxer_stats_loss {db : List (Nat × BoxerStats)} {k : Nat}
    {st : BoxerStats} (h : assocFind k db = some st) :
    update_boxer_stats db k "loss" =
      .ok (assocInsert k ⟨st.fights + 1, st.wins⟩ db) := by
  simp [update_boxer_stats, h]

theorem fight_first_wins {b1 b2 : Boxer} {db : List (Nat × BoxerStats)}
    {st1 st2 : BoxerStats} {r : ℝ}
    (h1 : assocFind b1.id db = some st1) (h2 : assocFind b2.id db = some st2)
    (hr : r < 1 / (1 + Real.exp (-|get_fighting_skill b1 - get_fighting_skill b2|))) :
    ∃ db', fight [b1, b2] db r = (.ok b1.name, [], db') := by
  have hlen : ¬ ([b1, b2] : List Boxer).length < 2 := by simp
  simp only [fight, eq_false hlen, if_false, if_pos hr]
  simp only [update_boxer_stats_win h1]
  by_cases hid : b2.id = b1.id
  · have hf : assocFind b2.id
        (assocInsert b1.id (⟨st1.fights + 1, st1.wins + 1⟩ : BoxerStats) db) =
        some ⟨st1.fights + 1, st1.wins + 1⟩ := by
      rw [hid]
      exact assocFind_insert_self _ _ _
    simp only [update_boxer_stats_loss hf]
    exact ⟨_, rfl⟩
  · simp only [update_boxer_stats_loss ((assocFind_insert_ne hid _ db).trans h2)]
    exact ⟨_, rfl⟩

theorem fight_second_wins {b1 b2 : Boxer} {db : List (Nat × BoxerStats)}
    {st1 st2 : BoxerStats} {r : ℝ}
    (h1 : assocFind b1.id db = some st1) (h2 : assocFind b2.id db = some st2)
    (hr : ¬ r < 1 / (1 + Real.exp (-|get_fighting_skill b1 - get_fighting_skill b2|))) :
    ∃ db', fight [b1, b2] db r = (.ok b2.name, [], db') := by
  have hlen : ¬ ([b1, b2] : List Boxer).length < 2 := by simp
  simp only [fight, eq_false hlen, if_false, if_neg hr]
  simp only [update_boxer_stats_win h2]
  by_cases hid : b1.id = b2.id
  · have hf : assocFind b1.id
        (assocInsert b2.id (⟨st2.fights + 1, st2.wins + 1⟩ : BoxerStats) db) =
        some ⟨st2.fights + 1, st2.wins + 1⟩ := by
      rw [hid]
      exact assocFind_insert_self _ _ _
    simp only [update_boxer_stats_loss hf]
    exact ⟨_, rfl⟩
  · simp only [update_boxer_stats_loss ((assocFind_insert_ne hid _ db).trans h1)]
    exact ⟨_, rfl⟩

theorem race_fresh_pair {s : TrackState} {k1 k2 : Nat} {c1 c2 : Cars}
    (r : ℝ) {now : ℚ} (htrack : s.track = [k1, k2])
    (h1 : expiredAt s.ttl k1 now = false)
    (hc1 : assocFind k1 s.car_cache = some c1)
    (h2 : expiredAt s.ttl k2 now = false)
    (hc2 : assocFind k2 s.car_cache = some c2) :
    race s r now = raceFinish s c1 c2 ∨ race s r now = raceFinish s c2 c1 := by
  have hg : get_cars s now = (.ok [c1, c2], s, 0) :=
    get_cars_fresh_pair htrack h1 hc1 h2 hc2
  have hlen : ¬ s.track.length < 2 := by
    rw [htrack]
    simp
  simp only [race, eq_false hlen, if_false, hg]
  by_cases hp : get_performance_score c1 > get_performance_score c2
  · simp only [if_pos hp]
    by_cases hq : r < 0.5 +
        1 / (1 + Real.exp (-|get_performance_score c1 - get_performance_score c2| / 100)) / 2
    · exact Or.inl (if_pos hq)
    · exact Or.inr (if_neg hq)
  · simp only [if_neg hp]
    by_cases hq : r < 0.5 +
        1 / (1 + Real.exp (-|get_performance_score c1 - get_performance_score c2| / 100)) / 2
    · exact Or.inr (if_pos hq)
    · exact Or.inl (if_neg hq)

theorem race_fresh_pair_first {s : TrackState} {k1 k2 : Nat} {c1 c2 : Cars}
    {r : ℝ} {now : ℚ} (htrack : s.track = [k1, k2])
    (h1 : expiredAt s.ttl k1 now = false)
    (hc1 : assocFind k1 s.car_cache = some c1)
    (h2 : expiredAt s.ttl k2 now = false)
    (hc2 : assocFind k2 s.car_cache = some c2)
    (hp : get_performance_score c1 > get_performance_score c2)
    (hq : r < 0.5 +
      1 / (1 + Real.exp (-|get_performance_score c1 - get_performance_score c2| / 100)) / 2) :
    race s r now = raceFinish s c1 c2 := by
  have hg : get_cars s now = (.ok [c1, c2], s, 0) :=
    get_cars_fresh_pair htrack h1 hc1 h2 hc2
  have hlen : ¬ s.track.length < 2 := by
    rw [htrack]
    simp
  simp only [race, eq_false hlen, if_false, hg]
  simp only [if_pos hp]
  exact if_pos hq

theorem skill_bxLow : get_fighting_skill bxLow = 1 := by
  have hl0 : "a".length = 1 := rfl
  have hl : ("a".length : ℝ) = 1 := by rw [hl0]; norm_num
  norm_num [get_fighting_skill, bxLow, hl]

theorem skill_bxHigh : get_fighting_skill bxHigh = 20 := by
  have hl0 : "bb".length = 2 := rfl
  have hl : ("bb".length : ℝ) = 2 := by rw [hl0]; norm_num
  norm_num [get_fighting_skill, bxHigh, hl]

theorem perf_carA : get_performance_score carA = 500 := by
  norm_num [get_performance_score, carA]

theorem perf_carB : get_performance_score carB = 400 := by
  norm_num [get_performance_score, carB]

/-! ## Claim theorems -/

/-- C8: clearing the roster empties the held participant sequence but leaves
the TTL cache contents (every cached entity and every expiry timestamp, and
the database) exactly as they were; clearing an already empty roster is a
no-op.  Stated for `TrackModel.clear_track` and `RingModel.clear_ring`. -/
theorem C8_clear_roster_frame :
    (∀ s : TrackState,
      (clear_track s).track = [] ∧
      (clear_track s).car_cache = s.car_cache ∧
      (clear_track s).ttl = s.ttl ∧
      (clear_track s).ttl_seconds = s.ttl_seconds ∧
      (clear_track s).db = s.db ∧
      (s.track = [] → clear_track s = s)) ∧
    (∀ ring : List Boxer,
      clear_ring ring = [] ∧ (ring = [] → clear_ring ring = ring)) := by
  constructor
  · intro s
    obtain ⟨h1, h2, h3, h4⟩ := clear_track_frame s
    refine ⟨clear_track_track s, h1, h2, h3, h4, ?_⟩
    intro h
    simp [clear_track, h]
  · intro ring
    constructor
    · unfold clear_ring
      by_cases h : ring.isEmpty
      · simp only [h, if_true]
        exact List.isEmpty_iff.mp h
      · simp [h]
    · intro h
      simp [clear_ring, h]

/-- Closed instance of `C8_clear_roster_frame`, discharging its hypotheses
on a concrete empty track and an empty ring. -/
theorem C8_clear_roster_frame_witness :
    clear_track ⟨[], [(7, carA)], [(7, 100)], 60, []⟩ =
      ⟨[], [(7, carA)], [(7, 100)], 60, []⟩ ∧
    clear_ring ([] : List Boxer) = [] :=
  ⟨(C8_clear_roster_frame.1 ⟨[], [(7, carA)], [(7, 100)], 60, []⟩).2.2.2.2.2 rfl,
   (C8_clear_roster_frame.2 []).2 rfl⟩

/-- C5: a roster already holding 2 participants rejects a third entry with
the capacity `ValueError` and is left with exactly the same contents, while
rosters of size 0 or 1 accept a valid entry; stated for `RingModel.enter_ring`
and `TrackModel.enter_track` (for the latter, a valid entry is a car id that
resolves in the store, and every id already on the track must still resolve
for the trailing logging line). -/
theorem C5_roster_capacity :
    (∀ (ring : List Boxer) (b : Boxer),
      (ring.length = 2 →
        enter_ring ring b =
          (.error (.valueError "Ring is full, cannot add more boxers."), ring)) ∧
      (ring.length ≤ 1 → enter_ring ring b = (.ok (), ring ++ [b]))) ∧
    (∀ (s : TrackState) (k : Nat) (now : ℚ),
      (s.track.length = 2 →
        enter_track s k now =
          (.error (.valueError "Track is full. There can only be two cars in a race."),
            s)) ∧
      (∀ c, s.track.length ≤ 1 → assocFind k s.db = some c →
        (∀ j ∈ s.track, (assocFind j s.db).isSome) →
        enter_track s k now =
          (.ok (),
            { s with
              track := s.track ++ [k],
              car_cache := assocInsert k c s.car_cache,
              ttl := assocInsert k (now + s.ttl_seconds) s.ttl }))) := by
  constructor
  · intro ring b
    constructor
    · intro h
      simp [enter_ring, h]
    · intro h
      have h2 : ¬ ring.length ≥ 2 := by omega
      simp [enter_ring, h2]
  · intro s k now
    constructor
    · intro h
      simp [enter_track, h]
    · intro c hlen hdb hall
      have h2 : ¬ s.track.length ≥ 2 := by omega
      have hres : logResolveAll s.db (s.track ++ [k]) = .ok () := by
        apply logResolveAll_ok
        intro j hj
        rcases List.mem_append.mp hj with hj | hj
        · exact hall j hj
        · simp only [List.mem_singleton] at hj
          subst hj
          simp [hdb]
      simp [enter_track, h2, get_car_by_id, hdb, hres]

/-- Closed instance of `C5_roster_capacity`: a full two-boxer ring rejects a
third entry and keeps its contents. -/
theorem C5_roster_capacity_witness :
    enter_ring [bxLow, bxHigh] bxLow =
      (.error (.valueError "Ring is full, cannot add more boxers."),
        [bxLow, bxHigh]) :=
  (C5_roster_capacity.1 [bxLow, bxHigh] bxLow).1 rfl

/-- C10: when no boxer matches the (stripped) name, the `try:` body of
`get_boxer_by_name` raises `ValueError`, but the handler swallows it, so the
function returns `None` to its caller and no error escapes. -/
theorem C10_get_boxer_by_name_absent (db : List (Nat × Boxers)) (name : String)
    (h : queryFirstByName name.trim db = none) :
    get_boxer_by_name_body db name =
      .error (.valueError s!"Boxer with name {name} not found") ∧
    get_boxer_by_name db name = none := by
  constructor
  · simp [get_boxer_by_name_body, h]
  · simp [get_boxer_by_name, get_boxer_by_name_body, h]

/-- Closed instance of `C10_get_boxer_by_name_absent` on an empty table. -/
theorem C10_get_boxer_by_name_absent_witness :
    get_boxer_by_name ([] : List (Nat × Boxers)) "Bob" = none :=
  (C10_get_boxer_by_name_absent [] "Bob" rfl).2

/-- C4: the cached boxer lookup fails (with the not-found `ValueError`, the
only error it can produce) exactly when the cache holds no live entry and the
store has no row, and the racing car lookup fails exactly when the store has
no row; a cache miss or expiry alone never produces an error. -/
theorem C4_notfound_iff :
    (∀ (s : BoxersState) (k : Nat) (now : ℚ),
      ((∃ e, (get_boxer_by_id s k now).1 = .error e) ↔
        boxerCacheGet s.cache k now = none ∧ assocFind k s.db = none) ∧
      (∀ e, (get_boxer_by_id s k now).1 = .error e →
        e = .valueError s!"Boxer with ID {k} not found")) ∧
    (∀ (db : List (Nat × Cars)) (k : Nat),
      ((∃ e, get_car_by_id db k = .error e) ↔ assocFind k db = none) ∧
      (∀ e, get_car_by_id db k = .error e →
        e = .valueError s!"Car with ID {k} not found.")) := by
  constructor
  · intro s k now
    unfold get_boxer_by_id
    cases hc : boxerCacheGet s.cache k now with
    | some b => simp
    | none =>
      cases hd : assocFind k s.db with
      | none =>
        constructor
        · simp
        · intro e he
          simpa using he.symm
      | some b => simp
  · intro db k
    unfold get_car_by_id
    cases hd : assocFind k db with
    | none =>
      constructor
      · simp
      · intro e he
        simpa using he.symm
    | some c => simp

/-- Closed instance of `C4_notfound_iff`: on an empty cache and store, the
cached boxer lookup fails. -/
theorem C4_notfound_iff_witness :
    ∃ e, (get_boxer_by_id ⟨[], []⟩ 1 0).1 = .error e :=
  ((C4_notfound_iff.1 ⟨[], []⟩ 1 0).1).mpr ⟨rfl, rfl⟩

/-- C1 counterexample: the claim asserts that both cached-lookup
implementations return absent at the boundary instant `now = t0 + d`.  For
the track's car cache this is false: with a car cached to expire at `100`
(populated at `t0 = 40` with `d = 60`) and an EMPTY backing store, the
lookup at `now = 100` still serves the cached car with zero store calls —
were the entry treated as expired, the lookup would have to hit the store
and fail. -/
theorem C1_boundary_counterexample :
    get_cars ⟨[1], [(1, carA)], [(1, 100)], 60, []⟩ 100 =
      (.ok [carA], ⟨[1], [(1, carA)], [(1, 100)], 60, []⟩, 0) := rfl

/-- C1 (amended): after `put(k, v)` at `t0` with ttl `d`, the boxing entity
cache returns `v` for query times `< t0 + d` and absent for `>= t0 + d`
(boundary included); the track's car cache instead serves the cached `v` for
all query times `<= t0 + d` — including the boundary instant — and falls
through to the backing store only for query times `> t0 + d`. -/
theorem C1_ttl_amended :
    (∀ (bc : List (Nat × Boxers × ℚ)) (k : Nat) (v : Boxers) (t0 t : ℚ),
      (t < t0 + cacheTtlSeconds →
        boxerCacheGet (assocInsert k (v, t0 + cacheTtlSeconds) bc) k t = some v) ∧
      (t0 + cacheTtlSeconds ≤ t →
        boxerCacheGet (assocInsert k (v, t0 + cacheTtlSeconds) bc) k t = none)) ∧
    (∀ (s : TrackState) (k : Nat) (c : Cars) (t0 t : ℚ),
      s.track = [k] → assocFind k s.car_cache = some c →
      assocFind k s.ttl = some (t0 + s.ttl_seconds) →
      ((t ≤ t0 + s.ttl_seconds → get_cars s t = (.ok [c], s, 0)) ∧
       (t0 + s.ttl_seconds < t → ∀ w, assocFind k s.db = some w →
         get_cars s t =
           (.ok [w],
             { s with car_cache := assocInsert k w s.car_cache,
                      ttl := assocInsert k (t + s.ttl_seconds) s.ttl }, 1)) ∧
       (t0 + s.ttl_seconds < t → assocFind k s.db = none →
         get_cars s t =
           (.error (.valueError s!"Car with ID {k} not found."), s, 1)))) := by
  constructor
  · intro bc k v t0 t
    constructor
    · intro h
      simp [boxerCacheGet, assocFind_insert_self, h]
    · intro h
      simp [boxerCacheGet, assocFind_insert_self, not_lt.mpr h]
  · intro s k c t0 t htrack hcache httl
    refine ⟨?_, ?_, ?_⟩
    · intro h
      exact get_cars_fresh_singleton htrack (expiredAt_fresh httl h) hcache
    · intro h w hdb
      exact get_cars_refresh_singleton htrack (expiredAt_late httl h) hdb
    · intro h hdb
      exact get_cars_miss_singleton htrack (expiredAt_late httl h) hdb

/-- Closed instance of `C1_ttl_amended`: a boxing entry stamped at `t0 = 0`
hits at `299` and misses at `300`; a track entry stamped at `t0 = 40` with
ttl `60` is still served at `90`. -/
theorem C1_ttl_amended_witness :
    boxerCacheGet (assocInsert 1 (sampleBoxers, (0 : ℚ) + cacheTtlSeconds) []) 1 299 =
      some sampleBoxers ∧
    boxerCacheGet (assocInsert 1 (sampleBoxers, (0 : ℚ) + cacheTtlSeconds) []) 1 300 =
      none ∧
    get_cars ⟨[1], [(1, carA)], [(1, 100)], 60, []⟩ 90 =
      (.ok [carA], ⟨[1], [(1, carA)], [(1, 100)], 60, []⟩, 0) :=
  ⟨(C1_ttl_amended.1 [] 1 sampleBoxers 0 299).1 (by norm_num [cacheTtlSeconds]),
   (C1_ttl_amended.1 [] 1 sampleBoxers 0 300).2 (by norm_num [cacheTtlSeconds]),
   ((C1_ttl_amended.2 ⟨[1], [(1, carA)], [(1, 100)], 60, []⟩ 1 carA 40 90 rfl rfl
      (by norm_num [assocFind])).1 (by norm_num))⟩

/-- C2 counterexample: the claim asserts that deletion invalidates the
corresponding cache entry in the racing track's car cache as well.  It does
not: `Cars.delete` only touches the `cars` table, so after deleting car `1`
a track that cached it (entry live until `100`) still serves the deleted
car at time `50` from its cache with zero store calls. -/
theorem C2_stale_after_delete_counterexample :
    carsDelete [(1, carA)] 1 = (.ok (), []) ∧
    get_cars ⟨[1], [(1, carA)], [(1, 100)], 60, (carsDelete [(1, carA)] 1).2⟩ 50 =
      (.ok [carA], ⟨[1], [(1, carA)], [(1, 100)], 60, (carsDelete [(1, carA)] 1).2⟩, 0) :=
  ⟨rfl, rfl⟩

/-- C2 (amended): `Boxers.delete` pops the entity cache, so a subsequent
`get_boxer_by_id` fails with the not-found `ValueError` at every later query
time; `Cars.delete` leaves `Cars.get_car_by_id` failing with the not-found
`ValueError`, but does not invalidate any `TrackModel` car cache: a track
holding a live cached copy of the deleted car still serves it, store-free,
within its TTL. -/
theorem C2_delete_amended :
    (∀ (s : BoxersState) (k : Nat) (now : ℚ) (s' : BoxersState),
      boxersDelete s k now = (.ok (), s') →
      ∀ now', get_boxer_by_id s' k now' =
        (.error (.valueError s!"Boxer with ID {k} not found"), s', 1)) ∧
    (∀ (db : List (Nat × Cars)) (k : Nat) (db' : List (Nat × Cars)),
      carsDelete db k = (.ok (), db') →
      get_car_by_id db' k = .error (.valueError s!"Car with ID {k} not found.")) ∧
    (∀ (s : TrackState) (k : Nat) (c : Cars) (e now : ℚ),
      s.track = [k] → assocFind k s.car_cache = some c →
      assocFind k s.ttl = some e → now ≤ e →
      get_cars { s with db := (carsDelete s.db k).2 } now =
        (.ok [c], { s with db := (carsDelete s.db k).2 }, 0)) := by
  refine ⟨?_, ?_, ?_⟩
  · intro s k now s' h
    unfold boxersDelete at h
    rcases hgb : get_boxer_by_id s k now with ⟨res, s1, n⟩
    rw [hgb] at h
    cases res with
    | error e => simp at h
    | ok b =>
      simp only [Prod.mk.injEq] at h
      obtain ⟨-, h2⟩ := h
      subst h2
      intro now'
      simp [get_boxer_by_id, boxerCacheGet_erase, assocFind_erase_self]
  · intro db k db' h
    unfold carsDelete at h
    cases hg : get_car_by_id db k with
    | error e => rw [hg] at h; simp at h
    | ok c =>
      rw [hg] at h
      simp only [Prod.mk.injEq] at h
      obtain ⟨-, h2⟩ := h
      subst h2
      simp [get_car_by_id, assocFind_erase_self]
  · intro s k c e now htrack hcache httl hle
    exact get_cars_fresh_singleton htrack (expiredAt_fresh httl hle) hcache

/-- Closed instance of `C2_delete_amended`: deleting boxer `1` (cached and
stored) leaves the cached lookup failing afterwards. -/
theorem C2_delete_amended_witness :
    get_boxer_by_id ⟨[], []⟩ 1 99 =
      (.error (.valueError "Boxer with ID 1 not found"), ⟨[], []⟩, 1) :=
  C2_delete_amended.1 ⟨[(1, (sampleBoxers, 50))], [(1, sampleBoxers)]⟩ 1 10
    ⟨[], []⟩ rfl 99

/-- C3: when the cache holds no live entry for `k` and the store holds `v`,
one cached lookup returns `v` with exactly one store call and stores `v` in
the cache, after which a raw cache probe within the TTL serves `v` with no
further store call; stated for the boxing entity cache and for the track's
car cache (there, the store-free re-read is a second `get_cars` showing zero
store calls). -/
theorem C3_fill_on_miss :
    (∀ (s : BoxersState) (k : Nat) (now : ℚ) (v : Boxers),
      boxerCacheGet s.cache k now = none → assocFind k s.db = some v →
      get_boxer_by_id s k now =
        (.ok v,
          { s with cache := assocInsert k (v, now + cacheTtlSeconds) s.cache }, 1) ∧
      (∀ t, t < now + cacheTtlSeconds →
        boxerCacheGet (assocInsert k (v, now + cacheTtlSeconds) s.cache) k t =
          some v)) ∧
    (∀ (s : TrackState) (k : Nat) (now : ℚ) (v : Cars),
      s.track = [k] → expiredAt s.ttl k now = true → assocFind k s.db = some v →
      get_cars s now =
        (.ok [v],
          { s with car_cache := assocInsert k v s.car_cache,
                   ttl := assocInsert k (now + s.ttl_seconds) s.ttl }, 1) ∧
      (∀ t, t ≤ now + s.ttl_seconds →
        get_cars
          { s with car_cache := assocInsert k v s.car_cache,
                   ttl := assocInsert k (now + s.ttl_seconds) s.ttl } t =
          (.ok [v],
            { s with car_cache := assocInsert k v s.car_cache,
                     ttl := assocInsert k (now + s.ttl_seconds) s.ttl }, 0))) := by
  constructor
  · intro s k now v hmiss hdb
    constructor
    · simp [get_boxer_by_id, hmiss, hdb]
    · intro t ht
      simp [boxerCacheGet, assocFind_insert_self, ht]
  · intro s k now v htrack hexp hdb
    constructor
    · exact get_cars_refresh_singleton htrack hexp hdb
    · intro t ht
      exact get_cars_fresh_singleton htrack
        (expiredAt_fresh (assocFind_insert_self k (now + s.ttl_seconds) s.ttl) ht)
        (assocFind_insert_self k v s.car_cache)

/-- Closed instance of `C3_fill_on_miss`: an empty boxing cache with boxer
`1` in the store fills on one lookup (one store call) and then hits at time
`100`. -/
theorem C3_fill_on_miss_witness :
    get_boxer_by_id ⟨[], [(1, sampleBoxers)]⟩ 1 0 =
      (.ok sampleBoxers,
        ⟨[(1, (sampleBoxers, (0 : ℚ) + cacheTtlSeconds))], [(1, sampleBoxers)]⟩, 1) ∧
    boxerCacheGet [(1, (sampleBoxers, (0 : ℚ) + cacheTtlSeconds))] 1 100 =
      some sampleBoxers :=
  ⟨(C3_fill_on_miss.1 ⟨[], [(1, sampleBoxers)]⟩ 1 0 sampleBoxers rfl rfl).1,
   (C3_fill_on_miss.1 ⟨[], [(1, sampleBoxers)]⟩ 1 0 sampleBoxers rfl rfl).2 100
     (by norm_num [cacheTtlSeconds])⟩

/-- C7: with exactly two participants held (here: two live cached cars whose
stats are consistent, resp. two boxers known to the statistics store), a
successful simulation returns normally and leaves the roster with zero
participants; with fewer than two, it fails with the
insufficient-participants `ValueError` and the roster (and all other state)
is returned unchanged. -/
theorem C7_simulate_clears :
    (∀ (s : TrackState) (r : ℝ) (now : ℚ) (k1 k2 : Nat) (c1 c2 : Cars),
      s.track = [k1, k2] →
      expiredAt s.ttl k1 now = false → assocFind k1 s.car_cache = some c1 →
      expiredAt s.ttl k2 now = false → assocFind k2 s.car_cache = some c2 →
      c1.wins ≤ c1.races → c2.wins ≤ c2.races →
      ∃ w s', race s r now = (.ok w, s') ∧ s'.track = []) ∧
    (∀ (s : TrackState) (r : ℝ) (now : ℚ),
      s.track.length < 2 →
      race s r now =
        (.error (.valueError "There must be two cars to start a race."), s)) ∧
    (∀ (b1 b2 : Boxer) (db : List (Nat × BoxerStats)) (r : ℝ)
       (st1 st2 : BoxerStats),
      assocFind b1.id db = some st1 → assocFind b2.id db = some st2 →
      ∃ w db', fight [b1, b2] db r = (.ok w, [], db')) ∧
    (∀ (ring : List Boxer) (db : List (Nat × BoxerStats)) (r : ℝ),
      ring.length < 2 →
      fight ring db r =
        (.error (.valueError "There must be two boxers to start a fight."),
          ring, db)) := by
  refine ⟨?_, ?_, ?_, ?_⟩
  · intro s r now k1 k2 c1 c2 htrack h1 hc1 h2 hc2 hw1 hw2
    rcases race_fresh_pair r htrack h1 hc1 h2 hc2 with h | h
    · rw [h, raceFinish_ok hw1 hw2]
      exact ⟨_, _, rfl, clear_track_track _⟩
    · rw [h, raceFinish_ok hw2 hw1]
      exact ⟨_, _, rfl, clear_track_track _⟩
  · intro s r now h
    simp only [race]
    rw [if_pos h]
  · intro b1 b2 db r st1 st2 h1 h2
    by_cases hr : r <
        1 / (1 + Real.exp (-|get_fighting_skill b1 - get_fighting_skill b2|))
    · obtain ⟨db2, hd⟩ := fight_first_wins h1 h2 hr
      exact ⟨_, db2, hd⟩
    · obtain ⟨db2, hd⟩ := fight_second_wins h1 h2 hr
      exact ⟨_, db2, hd⟩
  · intro ring db r h
    simp only [fight]
    rw [if_pos h]

/-- Closed instance of `C7_simulate_clears`: a race between the two cached
sample cars ends with an empty track, and a fight between the two sample
boxers ends with an empty ring. -/
theorem C7_simulate_clears_witness :
    (∃ w s',
      race ⟨[7, 12], [(7, carA), (12, carB)], [(7, 100), (12, 100)], 60, []⟩
          0 10 = (.ok w, s') ∧ s'.track = []) ∧
    (∃ w db',
      fight [bxLow, bxHigh] [(1, ⟨0, 0⟩), (2, ⟨0, 0⟩)] (1 / 2) =
        (.ok w, [], db')) :=
  ⟨C7_simulate_clears.1
      ⟨[7, 12], [(7, carA), (12, carB)], [(7, 100), (12, 100)], 60, []⟩ 0 10
      7 12 carA carB rfl (by norm_num [expiredAt, assocFind]) rfl
      (by norm_num [expiredAt, assocFind]) rfl (by decide) (by decide),
   C7_simulate_clears.2.2.1 bxLow bxHigh [(1, ⟨0, 0⟩), (2, ⟨0, 0⟩)] (1 / 2)
      ⟨0, 0⟩ ⟨0, 0⟩ rfl rfl⟩

/-- C9: in `RingModel.fight` the first-entered boxer wins exactly when the
draw `r` is below `1 / (1 + e^(-|skill_1 - skill_2|))`, regardless of which
boxer is stronger; in particular, when the second-entered boxer is strictly
stronger, the first-entered boxer still wins for every draw below
`1 - e^(skill_1 - skill_2)` (which tends to `1` as the gap grows). -/
theorem C9_fight_winner_rule (b1 b2 : Boxer) (db : List (Nat × BoxerStats))
    (st1 st2 : BoxerStats) (r : ℝ)
    (h1 : assocFind b1.id db = some st1) (h2 : assocFind b2.id db = some st2) :
    (r < 1 / (1 + Real.exp (-|get_fighting_skill b1 - get_fighting_skill b2|)) →
      ∃ db', fight [b1, b2] db r = (.ok b1.name, [], db')) ∧
    (¬ r < 1 / (1 + Real.exp (-|get_fighting_skill b1 - get_fighting_skill b2|)) →
      ∃ db', fight [b1, b2] db r = (.ok b2.name, [], db')) ∧
    (get_fighting_skill b1 < get_fighting_skill b2 →
      r < 1 - Real.exp (get_fighting_skill b1 - get_fighting_skill b2) →
      ∃ db', fight [b1, b2] db r = (.ok b1.name, [], db')) := by
  refine ⟨fun hr => fight_first_wins h1 h2 hr,
    fun hr => fight_second_wins h1 h2 hr, ?_⟩
  intro hlt hr
  apply fight_first_wins h1 h2
  have habs : |get_fighting_skill b1 - get_fighting_skill b2| =
      get_fighting_skill b2 - get_fighting_skill b1 := by
    rw [abs_sub_comm]
    exact abs_of_nonneg (by linarith)
  have hform : -|get_fighting_skill b1 - get_fighting_skill b2| =
      get_fighting_skill b1 - get_fighting_skill b2 := by
    rw [habs]
    ring
  rw [hform]
  have hy : 0 < Real.exp (get_fighting_skill b1 - get_fighting_skill b2) :=
    Real.exp_pos _
  have hnd : 1 - Real.exp (get_fighting_skill b1 - get_fighting_skill b2) <
      1 / (1 + Real.exp (get_fighting_skill b1 - get_fighting_skill b2)) := by
    rw [lt_div_iff (by linarith)]
    nlinarith [hy]
  linarith

/-- Closed instance of `C9_fight_winner_rule`: the weaker first-entered
sample boxer (skill 1 versus 20) beats the stronger one on the draw `2/5`,
since `2/5 < 1 - e^(-19)`. -/
theorem C9_fight_winner_rule_witness :
    ∃ db', fight [bxLow, bxHigh] [(1, ⟨0, 0⟩), (2, ⟨0, 0⟩)] (2 / 5) =
      (.ok bxLow.name, [], db') :=
  (C9_fight_winner_rule bxLow bxHigh [(1, ⟨0, 0⟩), (2, ⟨0, 0⟩)] ⟨0, 0⟩ ⟨0, 0⟩
      (2 / 5) rfl rfl).2.2
    (by rw [skill_bxLow, skill_bxHigh]; norm_num)
    (by
      rw [skill_bxLow, skill_bxHigh]
      rw [show ((1 : ℝ) - 20) = -19 by norm_num]
      have h1 : Real.exp (-19 : ℝ) < Real.exp (-1) :=
        Real.exp_lt_exp.mpr (by norm_num)
      have h2 : (2 : ℝ) < Real.exp 1 := by
        linarith [Real.exp_one_gt_d9]
      have h3 : Real.exp (-1 : ℝ) < 1 / 2 := by
        rw [Real.exp_neg]
        rw [inv_lt (by linarith) (by norm_num)]
        linarith
      linarith)

/-- C6: in the fixed scenario with scores 500 (first-entered) and 400 and
draw `0.4`, the race winner is the first-entered higher scorer, because the
normalized probability `1 / (1 + e^(-1))` exceeds `0.5`, hence so does the
win probability `0.5 + (1 / (1 + e^(-1))) / 2`, and the draw `0.4` falls
below it.  The sample cars realize the scores exactly. -/
theorem C6_fixed_scenario :
    get_performance_score carA = 500 ∧
    get_performance_score carB = 400 ∧
    (1 / 2 : ℝ) < 1 / (1 + Real.exp (-1)) ∧
    (2 / 5 : ℝ) < 0.5 + (1 / (1 + Real.exp (-1))) / 2 ∧
    (race ⟨[7, 12], [(7, carA), (12, carB)], [(7, 100), (12, 100)], 60,
        [(7, carA), (12, carB)]⟩ (2 / 5) 10).1 = .ok "Apex GT" := by
  have hexp : 0 < Real.exp (-1) := Real.exp_pos _
  have hlt1 : Real.exp (-1) < 1 := Real.exp_lt_one_iff.mpr (by norm_num)
  have hnd : (1 / 2 : ℝ) < 1 / (1 + Real.exp (-1)) := by
    rw [lt_div_iff (by linarith)]
    linarith
  have hndpos : (0 : ℝ) < 1 / (1 + Real.exp (-1)) := by positivity
  refine ⟨perf_carA, perf_carB, hnd, by linarith, ?_⟩
  have habs : -|get_performance_score carA - get_performance_score carB| / 100 =
      (-1 : ℝ) := by
    rw [perf_carA, perf_carB]
    rw [show (500 : ℝ) - 400 = 100 by norm_num]
    rw [abs_of_pos (by norm_num : (0 : ℝ) < 100)]
    norm_num
  have hq : (2 / 5 : ℝ) < 0.5 +
      1 / (1 + Real.exp
        (-|get_performance_score carA - get_performance_score carB| / 100)) / 2 := by
    rw [habs]
    linarith
  have hrace := @race_fresh_pair_first
    ⟨[7, 12], [(7, carA), (12, carB)], [(7, 100), (12, 100)], 60,
      [(7, carA), (12, carB)]⟩ 7 12 carA carB (2 / 5) 10
    rfl (by norm_num [expiredAt, assocFind]) rfl
    (by norm_num [expiredAt, assocFind]) rfl
    (by rw [perf_carA, perf_carB]; norm_num) hq
  rw [hrace, raceFinish_ok (by decide) (by decide)]
  rfl

end BoxRace
